import Mathlib

/-
Verification of the accessor layer in src/lib/clips.c against its
specification.

The C file is a thin forwarding layer: every function expands to an engine
macro declared in clips.h, which is not part of the sources here, and the
error signalling described by the specification lives in the host-language
binding layer, which is likewise absent.  Following the specification's own
data model (sections 3, 4 and 7), the missing engine semantics is modelled
explicitly below; each such definition carries a doc comment starting with
"Modelled from the spec:".  The one function whose body is entirely visible
in src/lib/clips.c, implied_deftemplate, is translated directly from the C.
Stateful C code (writes through a DATA_OBJECT or multifield pointer) becomes
explicit state passing: an operation returns its C return value (wrapped in
Except when the specification says it can fail) together with the updated
structure.
-/

set_option autoImplicit false

namespace Clips

/-- Modelled from the spec: the seven error kinds of section 7.  The C layer
forwards to engine macros and raises no errors itself; the binding layer that
does raise them is not among the sources. -/
inductive CLIPSError where
  | InvalidKindError
  | InvalidRangeError
  | IndexOutOfRangeError
  | KindMismatchError
  | SlotTypeError
  | UnknownFactError
  | UnknownSlotError
deriving DecidableEq, Repr

/-- Modelled from the spec: the SYMBOL kind code.  The numeric values of the
seven kind codes live in the missing clips.h; only their distinctness
matters, so codes 1 to 7 are fixed here. -/
def SYMBOL : Int := 1

/-- Modelled from the spec: the STRING kind code. -/
def STRING : Int := 2

/-- Modelled from the spec: the INTEGER kind code. -/
def INTEGER : Int := 3

/-- Modelled from the spec: the FLOAT kind code. -/
def FLOAT : Int := 4

/-- Modelled from the spec: the EXTERNAL_ADDRESS kind code. -/
def EXTERNAL_ADDRESS : Int := 5

/-- Modelled from the spec: the FACT_ADDRESS kind code. -/
def FACT_ADDRESS : Int := 6

/-- Modelled from the spec: the MULTIFIELD kind code. -/
def MULTIFIELD : Int := 7

/-- Modelled from the spec: a kind is defined when it is one of the seven
kinds of the section 3 data model. -/
def definedKind (t : Int) : Bool :=
  t == SYMBOL || t == STRING || t == INTEGER || t == FLOAT ||
  t == EXTERNAL_ADDRESS || t == FACT_ADDRESS || t == MULTIFIELD

/-- Values stored in a cell are opaque references (void pointers in the C),
modelled as natural numbers. -/
abbrev Value := Nat

/-- The DATA_OBJECT structure of the engine: a kind tag (C short), an opaque
value pointer, and the begin and end bounds (C long) of a multifield slice.
The struct declaration itself is in the missing clips.h; the fields are the
ones the spec's Value Cell carries and the accessors in src/lib/clips.c
read and write. -/
structure DATA_OBJECT where
  type : Int
  value : Value
  doBegin : Int
  doEnd : Int
deriving DecidableEq, Repr

/-- Translated from get_data_type in src/lib/clips.c: returns the cell's
kind tag (GetpType reads the type field). -/
def get_data_type (data : DATA_OBJECT) : Int :=
  data.type

/-- Modelled from the spec: set_data_type in src/lib/clips.c forwards to the
missing SetpType; per section 4.1 it stores the new kind and returns the
previous kind, failing with InvalidKindError when the new kind is not one of
the seven defined kinds.  On failure the cell is unchanged. -/
def set_data_type (data : DATA_OBJECT) (t : Int) :
    Except CLIPSError Int × DATA_OBJECT :=
  if definedKind t then
    (Except.ok data.type, { data with type := t })
  else
    (Except.error CLIPSError.InvalidKindError, data)

/-- Translated from get_data_value in src/lib/clips.c: returns the cell's
value pointer (GetpValue reads the value field). -/
def get_data_value (data : DATA_OBJECT) : Value :=
  data.value

/-- Modelled from the spec: set_data_value in src/lib/clips.c forwards to
the missing SetpValue; it stores the new value in the cell and returns it
(section 8's round trip feeds the result of set_value back in). -/
def set_data_value (data : DATA_OBJECT) (value : Value) :
    Value × DATA_OBJECT :=
  (value, { data with value := value })

/-- Translated from get_data_begin in src/lib/clips.c: returns the begin
bound of the cell's multifield slice. -/
def get_data_begin (data : DATA_OBJECT) : Int :=
  data.doBegin

/-- Modelled from the spec: set_data_begin in src/lib/clips.c forwards to
the missing SetpDOBegin; per section 4.1 the operation is valid only when
the cell's kind is MULTIFIELD, fails with InvalidRangeError when the
resulting begin exceeds the end or either bound is negative, and on success
stores and returns the new begin.  On failure the cell is unchanged. -/
def set_data_begin (data : DATA_OBJECT) (b : Int) :
    Except CLIPSError Int × DATA_OBJECT :=
  if data.type = MULTIFIELD then
    if b > data.doEnd ∨ b < 0 ∨ data.doEnd < 0 then
      (Except.error CLIPSError.InvalidRangeError, data)
    else
      (Except.ok b, { data with doBegin := b })
  else
    (Except.error CLIPSError.KindMismatchError, data)

/-- Translated from get_data_end in src/lib/clips.c: returns the end bound
of the cell's multifield slice. -/
def get_data_end (data : DATA_OBJECT) : Int :=
  data.doEnd

/-- Modelled from the spec: set_data_end in src/lib/clips.c forwards to the
missing SetpDOEnd; per section 4.1 the operation is valid only when the
cell's kind is MULTIFIELD, fails with InvalidRangeError when the begin
exceeds the resulting end or either bound is negative, and on success stores
and returns the new end.  On failure the cell is unchanged. -/
def set_data_end (data : DATA_OBJECT) (e : Int) :
    Except CLIPSError Int × DATA_OBJECT :=
  if data.type = MULTIFIELD then
    if data.doBegin > e ∨ data.doBegin < 0 ∨ e < 0 then
      (Except.error CLIPSError.InvalidRangeError, data)
    else
      (Except.ok e, { data with doEnd := e })
  else
    (Except.error CLIPSError.KindMismatchError, data)

/-- Modelled from the spec: get_data_length in src/lib/clips.c forwards to
the missing GetpDOLength; per section 4.1 it returns end - begin + 1 when
the cell's kind is MULTIFIELD and 0 for every other kind. -/
def get_data_length (data : DATA_OBJECT) : Int :=
  if data.type = MULTIFIELD then data.doEnd - data.doBegin + 1 else 0

/-- One field of a multifield: a kind tag and an opaque value, as read and
written by the GetMF/SetMF accessors of src/lib/clips.c. -/
structure Field where
  ftype : Int
  fvalue : Value
deriving DecidableEq, Repr

/-- The engine's multifield: the length recorded at construction (the
multifieldLength slot read by get_multifield_length) together with the
ordered sequence of fields. -/
structure Multifield where
  length : Int
  fields : List Field
deriving DecidableEq, Repr

/-- Construction of a multifield from its fields: the recorded length is the
number of fields (spec section 3 invariant: length equals the number of
cells). -/
def mkMultifield (fs : List Field) : Multifield :=
  { length := Int.ofNat fs.length, fields := fs }

/-- Replace the element at a position in a list, leaving the list unchanged
when the position is out of range. -/
def updateAt {α : Type} : List α → Nat → (α → α) → List α
  | [], _, _ => []
  | x :: xs, 0, f => f x :: xs
  | x :: xs, n + 1, f => x :: updateAt xs n f

/-- Whether a 1-based index is inside a multifield, per spec section 4.2:
the valid range is 1 to length. -/
def mfInRange (mf : Multifield) (index : Int) : Prop :=
  1 ≤ index ∧ index ≤ mf.length

instance (mf : Multifield) (index : Int) : Decidable (mfInRange mf index) :=
  inferInstanceAs (Decidable (_ ∧ _))

/-- Modelled from the spec: get_multifield_type in src/lib/clips.c forwards
to the missing GetMFType; per section 4.2 it returns the kind of the field
at the 1-based index, failing with IndexOutOfRangeError when the index is
outside 1 to length. -/
def get_multifield_type (mf : Multifield) (index : Int) :
    Except CLIPSError Int :=
  if mfInRange mf index then
    Except.ok ((mf.fields.getD (index.toNat - 1) { ftype := 0, fvalue := 0 }).ftype)
  else
    Except.error CLIPSError.IndexOutOfRangeError

/-- Modelled from the spec: set_multifield_type in src/lib/clips.c forwards
to the missing SetMFType; per section 4.2 it stores the kind of the field at
the 1-based index and returns the stored kind, failing with
IndexOutOfRangeError when the index is outside 1 to length.  On failure the
multifield is unchanged. -/
def set_multifield_type (mf : Multifield) (index : Int) (t : Int) :
    Except CLIPSError Int × Multifield :=
  if mfInRange mf index then
    (Except.ok t,
      { mf with fields := updateAt mf.fields (index.toNat - 1) (fun f => { f with ftype := t }) })
  else
    (Except.error CLIPSError.IndexOutOfRangeError, mf)

/-- Modelled from the spec: get_multifield_value in src/lib/clips.c forwards
to the missing GetMFValue; per section 4.2 it returns the value of the field
at the 1-based index, failing with IndexOutOfRangeError when the index is
outside 1 to length. -/
def get_multifield_value (mf : Multifield) (index : Int) :
    Except CLIPSError Value :=
  if mfInRange mf index then
    Except.ok ((mf.fields.getD (index.toNat - 1) { ftype := 0, fvalue := 0 }).fvalue)
  else
    Except.error CLIPSError.IndexOutOfRangeError

/-- Modelled from the spec: set_multifield_value in src/lib/clips.c forwards
to the missing SetMFValue; per section 4.2 it stores the value of the field
at the 1-based index and returns the stored value, failing with
IndexOutOfRangeError when the index is outside 1 to length.  On failure the
multifield is unchanged. -/
def set_multifield_value (mf : Multifield) (index : Int) (value : Value) :
    Except CLIPSError Value × Multifield :=
  if mfInRange mf index then
    (Except.ok value,
      { mf with fields := updateAt mf.fields (index.toNat - 1) (fun f => { f with fvalue := value }) })
  else
    (Except.error CLIPSError.IndexOutOfRangeError, mf)

/-- Translated from get_multifield_length in src/lib/clips.c: returns the
recorded length (GetMFLength reads the multifieldLength slot). -/
def get_multifield_length (mf : Multifield) : Int :=
  mf.length

/-- Apply a sequence of set_multifield_value calls to a multifield, keeping
only the resulting state of each call. -/
def applySetValues (mf : Multifield) (ops : List (Int × Value)) : Multifield :=
  ops.foldl (fun m p => (set_multifield_value m p.1 p.2).2) mf

/-- Modelled from the spec: the raw content of an interned hash node, per
section 3 keyed by string bytes (symbols and strings), integer, or float
bit-pattern.  The hash-node structures themselves are in the missing
clips.h. -/
inductive RawValue where
  | str : String → RawValue
  | int : Int → RawValue
  | flt : Int → RawValue
deriving DecidableEq, Repr

/-- Modelled from the spec: the process-wide interning table of section 3,
a map from raw value to a canonical hash node.  A node is identified by its
position in the node list. -/
structure InternTable where
  nodes : List RawValue
deriving DecidableEq, Repr

/-- Find the identity of the hash node holding a raw value, if present. -/
def lookupNode : List RawValue → RawValue → Option Nat
  | [], _ => none
  | x :: xs, v => if x = v then some 0 else (lookupNode xs v).map (· + 1)

/-- Modelled from the spec: interning per section 3, created lazily on first
occurrence.  Returns the canonical node identity for the raw value, reusing
an existing node when one holds an equal raw value and appending a fresh
node otherwise. -/
def intern (t : InternTable) (v : RawValue) : Nat × InternTable :=
  match lookupNode t.nodes v with
  | some i => (i, t)
  | none => (t.nodes.length, { nodes := t.nodes ++ [v] })

/-- Modelled from the spec: to_string in src/lib/clips.c forwards to the
missing ValueToString on a symbolHashNode; per section 4.3 it returns the
node's string content and fails with KindMismatchError when the node is not
a string/symbol node. -/
def to_string : RawValue → Except CLIPSError String
  | RawValue.str s => Except.ok s
  | RawValue.int _ => Except.error CLIPSError.KindMismatchError
  | RawValue.flt _ => Except.error CLIPSError.KindMismatchError

/-- The deftemplate structure as the spec's section 3 describes it; the C
struct declaration is in the missing clips.h, and implied_deftemplate in
src/lib/clips.c reads its implied flag. -/
structure Deftemplate where
  name : String
  implied : Bool
deriving DecidableEq, Repr

/-- The engine state visible to the accessor layer: the defined templates
and the live value cells.  Templates are referenced by position, standing
for the C pointers. -/
structure EngineState where
  templates : List Deftemplate
  dataObjects : List DATA_OBJECT
deriving DecidableEq, Repr

/-- Translated from implied_deftemplate in src/lib/clips.c: the body is
fully visible there and returns template->implied.  The function only reads,
so as a state transformer it returns the flag of the referenced template and
the state unchanged. -/
def implied_deftemplate (s : EngineState) (tpl : Nat) :
    Option Bool × EngineState :=
  ((s.templates.get? tpl).map Deftemplate.implied, s)

theorem updateAt_length {α : Type} (l : List α) (n : Nat) (f : α → α) :
    (updateAt l n f).length = l.length := by
  induction l generalizing n with
  | nil => rfl
  | cons x xs ih =>
    cases n with
    | zero => rfl
    | succ m => simpa [updateAt] using ih m

theorem set_multifield_value_preserves (m : Multifield) (i : Int) (v : Value) :
    (set_multifield_value m i v).2.length = m.length ∧
    (set_multifield_value m i v).2.fields.length = m.fields.length := by
  by_cases h : mfInRange m i <;>
    simp [set_multifield_value, h, updateAt_length]

theorem applySetValues_preserves (ops : List (Int × Value)) (m : Multifield) :
    (applySetValues m ops).length = m.length ∧
    (applySetValues m ops).fields.length = m.fields.length := by
  induction ops generalizing m with
  | nil => exact ⟨rfl, rfl⟩
  | cons p ps ih =>
    have h1 := set_multifield_value_preserves m p.1 p.2
    have h2 := ih (set_multifield_value m p.1 p.2).2
    refine ⟨?_, ?_⟩
    · calc (applySetValues m (p :: ps)).length
          = (applySetValues (set_multifield_value m p.1 p.2).2 ps).length := rfl
        _ = (set_multifield_value m p.1 p.2).2.length := h2.1
        _ = m.length := h1.1
    · calc (applySetValues m (p :: ps)).fields.length
          = (applySetValues (set_multifield_value m p.1 p.2).2 ps).fields.length := rfl
        _ = (set_multifield_value m p.1 p.2).2.fields.length := h2.2
        _ = m.fields.length := h1.2

theorem lookupNode_some_lt {ns : List RawValue} {v : RawValue} {i : Nat}
    (h : lookupNode ns v = some i) : i < ns.length := by
  induction ns generalizing i with
  | nil => exact absurd h (by simp [lookupNode])
  | cons x xs ih =>
    by_cases hx : x = v
    · rw [lookupNode, if_pos hx] at h
      have hi : i = 0 := by simpa using h.symm
      subst hi
      simp
    · rw [lookupNode, if_neg hx] at h
      cases hj : lookupNode xs v with
      | none => rw [hj] at h; exact absurd h (by simp)
      | some j =>
        rw [hj] at h
        simp at h
        have := ih hj
        simp only [List.length_cons]
        omega

theorem lookupNode_some_get {ns : List RawValue} {v : RawValue} {i : Nat}
    (h : lookupNode ns v = some i) : ns[i]? = some v := by
  induction ns generalizing i with
  | nil => exact absurd h (by simp [lookupNode])
  | cons x xs ih =>
    by_cases hx : x = v
    · simp [lookupNode, hx] at h
      subst h
      simpa using hx
    · rw [lookupNode, if_neg hx] at h
      cases hj : lookupNode xs v with
      | none => rw [hj] at h; exact absurd h (by simp)
      | some j =>
        rw [hj] at h
        simp at h
        subst h
        simpa using ih hj

theorem lookupNode_append_self {ns : List RawValue} {v : RawValue}
    (h : lookupNode ns v = none) : lookupNode (ns ++ [v]) v = some ns.length := by
  induction ns with
  | nil => simp [lookupNode]
  | cons x xs ih =>
    rw [lookupNode] at h
    by_cases hx : x = v
    · rw [if_pos hx] at h; exact absurd h (by simp)
    · rw [if_neg hx] at h
      have hj : lookupNode xs v = none := by
        cases hj : lookupNode xs v with
        | none => rfl
        | some j => rw [hj] at h; exact absurd h (by simp)
      simp [lookupNode, hx, ih hj]

/-- Claim C1: for every value cell and every kind, set_type (set_data_type)
returns the cell's previous kind and fails with InvalidKindError if the new
kind is not one of the seven defined kinds; for a defined kind the cell's
kind afterward is the new kind (and the rest of the cell is untouched). -/
theorem set_data_type_spec (d : DATA_OBJECT) (t : Int) :
    (definedKind t = false →
      set_data_type d t = (Except.error CLIPSError.InvalidKindError, d)) ∧
    (definedKind t = true →
      (set_data_type d t).1 = Except.ok (get_data_type d) ∧
      get_data_type (set_data_type d t).2 = t ∧
      (set_data_type d t).2.value = d.value ∧
      (set_data_type d t).2.doBegin = d.doBegin ∧
      (set_data_type d t).2.doEnd = d.doEnd) := by
  constructor <;> intro h <;>
    simp [set_data_type, get_data_type, h]

/-- Witness for claim C1 at a concrete cell: changing a SYMBOL cell to
MULTIFIELD succeeds and returns the previous kind SYMBOL, while kind code 42
is rejected with InvalidKindError. -/
theorem set_data_type_spec_witness :
    definedKind MULTIFIELD = true ∧ definedKind 42 = false ∧
    (set_data_type { type := SYMBOL, value := 0, doBegin := 0, doEnd := 0 }
      MULTIFIELD).1 = Except.ok SYMBOL ∧
    set_data_type { type := SYMBOL, value := 0, doBegin := 0, doEnd := 0 } 42 =
      (Except.error CLIPSError.InvalidKindError,
        { type := SYMBOL, value := 0, doBegin := 0, doEnd := 0 }) :=
  ⟨by decide, by decide,
    ((set_data_type_spec { type := SYMBOL, value := 0, doBegin := 0, doEnd := 0 }
      MULTIFIELD).2 (by decide)).1,
    (set_data_type_spec { type := SYMBOL, value := 0, doBegin := 0, doEnd := 0 }
      42).1 (by decide)⟩

/-- Claim C2: for every value cell, get_length (get_data_length) returns
end - begin + 1 when the cell's kind is MULTIFIELD and 0 for every other
kind. -/
theorem get_data_length_spec (d : DATA_OBJECT) :
    (d.type = MULTIFIELD → get_data_length d = d.doEnd - d.doBegin + 1) ∧
    (d.type ≠ MULTIFIELD → get_data_length d = 0) := by
  constructor <;> intro h <;> simp [get_data_length, h]

/-- Witness for claim C2 at concrete cells: a MULTIFIELD cell with bounds 2
and 5 has length 5 - 2 + 1, and a SYMBOL cell with the same bounds has
length 0. -/
theorem get_data_length_spec_witness :
    get_data_length { type := MULTIFIELD, value := 0, doBegin := 2, doEnd := 5 } =
      5 - 2 + 1 ∧
    get_data_length { type := SYMBOL, value := 0, doBegin := 2, doEnd := 5 } = 0 :=
  ⟨(get_data_length_spec
      { type := MULTIFIELD, value := 0, doBegin := 2, doEnd := 5 }).1 (by decide),
   (get_data_length_spec
      { type := SYMBOL, value := 0, doBegin := 2, doEnd := 5 }).2 (by decide)⟩

/-- Claim C3: for every multifield and index, each of get_type, set_type,
get_value and set_value on the multifield fails with IndexOutOfRangeError
exactly when the 1-based index is outside the range 1 to length; inside the
range each of the four operations succeeds. -/
theorem multifield_index_spec (mf : Multifield) (i : Int) (t : Int) (v : Value) :
    (¬ (1 ≤ i ∧ i ≤ get_multifield_length mf) →
      get_multifield_type mf i = Except.error CLIPSError.IndexOutOfRangeError ∧
      (set_multifield_type mf i t).1 = Except.error CLIPSError.IndexOutOfRangeError ∧
      get_multifield_value mf i = Except.error CLIPSError.IndexOutOfRangeError ∧
      (set_multifield_value mf i v).1 = Except.error CLIPSError.IndexOutOfRangeError) ∧
    ((1 ≤ i ∧ i ≤ get_multifield_length mf) →
      (∃ a, get_multifield_type mf i = Except.ok a) ∧
      (∃ a, (set_multifield_type mf i t).1 = Except.ok a) ∧
      (∃ a, get_multifield_value mf i = Except.ok a) ∧
      (∃ a, (set_multifield_value mf i v).1 = Except.ok a)) := by
  constructor <;> intro h
  · have h' : ¬ mfInRange mf i := by
      simpa [mfInRange, get_multifield_length] using h
    simp [get_multifield_type, set_multifield_type, get_multifield_value,
      set_multifield_value, h']
  · have h' : mfInRange mf i := by
      simpa [mfInRange, get_multifield_length] using h
    simp [get_multifield_type, set_multifield_type, get_multifield_value,
      set_multifield_value, h']

/-- Witness for claim C3 on a concrete two-element multifield: index 3 is
out of range and get_type fails with IndexOutOfRangeError; index 2 is in
range and get_type succeeds. -/
theorem multifield_index_spec_witness :
    (¬ (1 ≤ (3 : Int) ∧ (3 : Int) ≤
        get_multifield_length (mkMultifield [⟨1, 10⟩, ⟨2, 20⟩]))) ∧
    get_multifield_type (mkMultifield [⟨1, 10⟩, ⟨2, 20⟩]) 3 =
      Except.error CLIPSError.IndexOutOfRangeError ∧
    (∃ a, get_multifield_type (mkMultifield [⟨1, 10⟩, ⟨2, 20⟩]) 2 = Except.ok a) :=
  ⟨by decide,
   ((multifield_index_spec (mkMultifield [⟨1, 10⟩, ⟨2, 20⟩]) 3 0 0).1 (by decide)).1,
   ((multifield_index_spec (mkMultifield [⟨1, 10⟩, ⟨2, 20⟩]) 2 0 0).2 (by decide)).1⟩

/-- Claim C4: round-trip: after set_value (set_data_value) stores a value in
a cell, get_value (get_data_value) on the updated cell returns exactly the
just-set value. -/
theorem data_value_roundtrip (d : DATA_OBJECT) (v : Value) :
    get_data_value (set_data_value d v).2 = v :=
  rfl

/-- Claim C5: for every multifield built by construction from its fields,
get_length (get_multifield_length) returns the length recorded at
construction, and that value — together with the section 3 invariant that
the recorded length equals the number of fields — is unchanged by any
sequence of set_value (set_multifield_value) calls. -/
theorem multifield_length_invariant (fs : List Field) (ops : List (Int × Value)) :
    get_multifield_length (applySetValues (mkMultifield fs) ops) =
      Int.ofNat fs.length ∧
    (applySetValues (mkMultifield fs) ops).fields.length = fs.length := by
  have h := applySetValues_preserves ops (mkMultifield fs)
  exact ⟨h.1, h.2⟩

/-- Claim C6: set_begin (set_data_begin) and set_end (set_data_end) are
valid only when the cell's kind is MULTIFIELD (on any other kind they fail);
on a MULTIFIELD cell they fail with InvalidRangeError exactly when the
resulting begin exceeds the end or either bound is negative; and whenever
they fail the cell is unchanged. -/
theorem set_data_begin_end_spec (d : DATA_OBJECT) (b e : Int) :
    (d.type ≠ MULTIFIELD →
      (∃ err, (set_data_begin d b).1 = Except.error err) ∧
      (∃ err, (set_data_end d e).1 = Except.error err)) ∧
    (d.type = MULTIFIELD →
      ((set_data_begin d b).1 = Except.error CLIPSError.InvalidRangeError ↔
        b > d.doEnd ∨ b < 0 ∨ d.doEnd < 0) ∧
      ((set_data_end d e).1 = Except.error CLIPSError.InvalidRangeError ↔
        d.doBegin > e ∨ d.doBegin < 0 ∨ e < 0)) ∧
    (∀ err, (set_data_begin d b).1 = Except.error err → (set_data_begin d b).2 = d) ∧
    (∀ err, (set_data_end d e).1 = Except.error err → (set_data_end d e).2 = d) := by
  refine ⟨fun h => ?_, fun h => ?_, fun err herr => ?_, fun err herr => ?_⟩
  · simp [set_data_begin, set_data_end, h]
  · constructor
    · by_cases hr : b > d.doEnd ∨ b < 0 ∨ d.doEnd < 0 <;>
        simp [set_data_begin, h, hr]
    · by_cases hr : d.doBegin > e ∨ d.doBegin < 0 ∨ e < 0 <;>
        simp [set_data_end, h, hr]
  · by_cases h1 : d.type = MULTIFIELD
    · by_cases hr : b > d.doEnd ∨ b < 0 ∨ d.doEnd < 0
      · simp [set_data_begin, h1, hr]
      · simp [set_data_begin, h1, hr] at herr
    · simp [set_data_begin, h1]
  · by_cases h1 : d.type = MULTIFIELD
    · by_cases hr : d.doBegin > e ∨ d.doBegin < 0 ∨ e < 0
      · simp [set_data_end, h1, hr]
      · simp [set_data_end, h1, hr] at herr
    · simp [set_data_end, h1]

/-- Witness for claim C6 at a concrete MULTIFIELD cell with bounds 0 and 3:
set_begin 5 fails with InvalidRangeError because 5 exceeds the end bound,
and the failing call leaves the cell unchanged. -/
theorem set_data_begin_end_spec_witness :
    ((set_data_begin { type := MULTIFIELD, value := 0, doBegin := 0, doEnd := 3 }
        5).1 = Except.error CLIPSError.InvalidRangeError ↔
      (5 : Int) > 3 ∨ (5 : Int) < 0 ∨ (3 : Int) < 0) ∧
    (set_data_begin { type := MULTIFIELD, value := 0, doBegin := 0, doEnd := 3 }
        5).2 = { type := MULTIFIELD, value := 0, doBegin := 0, doEnd := 3 } :=
  ⟨((set_data_begin_end_spec
      { type := MULTIFIELD, value := 0, doBegin := 0, doEnd := 3 } 5 0).2.1 rfl).1,
   (set_data_begin_end_spec
      { type := MULTIFIELD, value := 0, doBegin := 0, doEnd := 3 } 5 0).2.2.1
      CLIPSError.InvalidRangeError rfl⟩

/-- Claim C7: for every hash node, to_string returns the node's string
content when the node is a string/symbol node and fails with
KindMismatchError when it is not. -/
theorem to_string_spec (n : RawValue) :
    (∀ s, n = RawValue.str s → to_string n = Except.ok s) ∧
    ((∀ s, n ≠ RawValue.str s) →
      to_string n = Except.error CLIPSError.KindMismatchError) := by
  cases n with
  | str s =>
    refine ⟨fun s' h => ?_, fun h => absurd rfl (h s)⟩
    cases h
    rfl
  | int i => exact ⟨fun s' h => RawValue.noConfusion h, fun _ => rfl⟩
  | flt x => exact ⟨fun s' h => RawValue.noConfusion h, fun _ => rfl⟩

/-- Witness for claim C7 at concrete nodes: a string node yields its
content, and an integer node fails with KindMismatchError. -/
theorem to_string_spec_witness :
    to_string (RawValue.str ("a")) = Except.ok ("a") ∧
    to_string (RawValue.int 3) = Except.error CLIPSError.KindMismatchError :=
  ⟨(to_string_spec (RawValue.str ("a"))).1 ("a") rfl,
   (to_string_spec (RawValue.int 3)).2 (fun _ h => RawValue.noConfusion h)⟩

/-- Claim C8: interning two raw values yields the same node identity exactly
when the values have equal kind and raw content, so identity equality of
interned references coincides with value equality; moreover the returned
identity names a canonical node holding the interned raw value. -/
theorem intern_spec (t : InternTable) (v1 v2 : RawValue) :
    ((intern (intern t v1).2 v2).1 = (intern t v1).1 ↔ v2 = v1) ∧
    (intern t v1).2.nodes[(intern t v1).1]? = some v1 := by
  constructor
  · unfold intern
    cases h1 : lookupNode t.nodes v1 with
    | some i =>
      cases h2 : lookupNode t.nodes v2 with
      | some j =>
        simp only
        constructor
        · intro hij
          subst hij
          have g1 := lookupNode_some_get h1
          have g2 := lookupNode_some_get h2
          rw [g1] at g2
          exact (Option.some.inj g2).symm
        · intro hv
          subst hv
          rw [h1] at h2
          exact Option.some.inj h2.symm
      | none =>
        simp only
        constructor
        · intro hij
          exact absurd hij (Nat.ne_of_gt (lookupNode_some_lt h1))
        · intro hv
          subst hv
          rw [h1] at h2
          exact absurd h2 (by simp)
    | none =>
      cases h2 : lookupNode (t.nodes ++ [v1]) v2 with
      | some j =>
        simp only
        constructor
        · intro hij
          subst hij
          have g2 := lookupNode_some_get h2
          rw [List.getElem?_concat_length] at g2
          exact Option.some.inj g2.symm
        · intro hv
          subst hv
          rw [lookupNode_append_self h1] at h2
          exact Option.some.inj h2.symm
      | none =>
        simp only
        constructor
        · intro hij
          simp at hij
        · intro hv
          subst hv
          rw [lookupNode_append_self h1] at h2
          exact absurd h2 (by simp)
  · unfold intern
    cases h1 : lookupNode t.nodes v1 with
    | some i => exact lookupNode_some_get h1
    | none => exact List.getElem?_concat_length t.nodes v1

/-- Claim C9: implied_deftemplate returns the implied flag of the referenced
deftemplate and modifies nothing: the engine state, templates included, is
returned unchanged. -/
theorem implied_deftemplate_spec (s : EngineState) (i : Nat) (t : Deftemplate)
    (h : s.templates.get? i = some t) :
    (implied_deftemplate s i).1 = some t.implied ∧
    (implied_deftemplate s i).2 = s :=
  ⟨congrArg (Option.map Deftemplate.implied) h, rfl⟩

/-- Witness for claim C9 at a concrete state holding one implied template:
the call reports the flag true and returns the state unchanged. -/
theorem implied_deftemplate_spec_witness :
    (implied_deftemplate
        { templates := [{ name := ("t"), implied := true }], dataObjects := [] }
        0).1 = some true ∧
    (implied_deftemplate
        { templates := [{ name := ("t"), implied := true }], dataObjects := [] }
        0).2 =
      { templates := [{ name := ("t"), implied := true }], dataObjects := [] } :=
  implied_deftemplate_spec
    { templates := [{ name := ("t"), implied := true }], dataObjects := [] }
    0 { name := ("t"), implied := true } rfl

/-- Claim C10: set_data_value returns the value just assigned, not the value
previously held, and on success set_data_begin and set_data_end return the
newly assigned bound. -/
theorem set_return_new_value (d : DATA_OBJECT) (v : Value) (b e : Int) :
    (set_data_value d v).1 = v ∧
    (d.type = MULTIFIELD → ¬ (b > d.doEnd ∨ b < 0 ∨ d.doEnd < 0) →
      (set_data_begin d b).1 = Except.ok b) ∧
    (d.type = MULTIFIELD → ¬ (d.doBegin > e ∨ d.doBegin < 0 ∨ e < 0) →
      (set_data_end d e).1 = Except.ok e) := by
  refine ⟨rfl, fun h1 h2 => ?_, fun h1 h2 => ?_⟩ <;>
    simp [set_data_begin, set_data_end, h1, h2]

/-- Witness for claim C10 at a concrete MULTIFIELD cell with bounds 0 and 3:
set_data_value returns the new value 5, set_data_begin 1 returns 1, and
set_data_end 2 returns 2. -/
theorem set_return_new_value_witness :
    (set_data_value { type := MULTIFIELD, value := 0, doBegin := 0, doEnd := 3 }
      5).1 = 5 ∧
    (set_data_begin { type := MULTIFIELD, value := 0, doBegin := 0, doEnd := 3 }
      1).1 = Except.ok 1 ∧
    (set_data_end { type := MULTIFIELD, value := 0, doBegin := 0, doEnd := 3 }
      2).1 = Except.ok 2 :=
  ⟨(set_return_new_value
      { type := MULTIFIELD, value := 0, doBegin := 0, doEnd := 3 } 5 1 2).1,
   (set_return_new_value
      { type := MULTIFIELD, value := 0, doBegin := 0, doEnd := 3 } 5 1 2).2.1
      rfl (by decide),
   (set_return_new_value
      { type := MULTIFIELD, value := 0, doBegin := 0, doEnd := 3 } 5 1 2).2.2
      rfl (by decide)⟩

end Clips
